import Mathlib

/-!
Shallow embedding of the JVMChaos admission validation core from
`api/v1alpha1/jvmchaos_webhook.go`: the static rule catalog `JvmSpec`,
the parameter checker `validateParameterRules`, and the orchestrating
`validateJvmChaos`.  Parameter maps (`map[string]string`, possibly nil)
are embedded as `Option (List (String × String))`; field paths as plain
strings joined with a dot, matching the printed form of the external
path type.  The unspecified iteration order of the Go `range` loop over
the action map is made explicit as an `ord : List String` parameter of
`validateJvmChaos`; theorems that touch the unsupported-action branch
quantify over permutations of the key list.
-/

/-- A submitted parameter map (`map[string]string` in Go), as an
association list.  Go map keys are unique; lookups take the first
binding, which coincides with the map semantics on duplicate-free
lists. -/
abbrev PMap := List (String × String)

/-- The kind tag of an error record of the external field-error
library: the three constructors used by the webhook are invalid,
required, and not-supported. -/
inductive FieldErrorType where
  | invalid
  | required
  | notSupported
deriving DecidableEq

/-- One violation record, mirroring the external field-error structure
consumed by the webhook: a kind, the printed field path, the offending
value, and a detail message. -/
structure FieldError where
  type : FieldErrorType
  field : String
  badValue : String
  detail : String
deriving DecidableEq

/-- Child path: the printed form of appending one segment to a field
path, as in `spec.flags.time`. -/
def pathChild (p s : String) : String := p ++ "." ++ s

/-- Modelled from the spec: quoting of a plain action name as done by
the external not-supported error builder (no action name in the catalog
needs escaping, so quoting is wrapping in double quotes). -/
def goQuote (s : String) : String := "\"" ++ s ++ "\""

/-- Detail message of a not-supported error of the external field-error
library: the quoted valid values joined by a comma. -/
def notSupportedDetail (validValues : List String) : String :=
  if validValues.isEmpty then ""
  else "supported values: " ++ String.intercalate ", " (validValues.map goQuote)

/-- Printed name of each error kind, as the external library renders
it. -/
def errorTypeString : FieldErrorType → String
  | .invalid => "Invalid value"
  | .required => "Required value"
  | .notSupported => "Unsupported value"

/-- Modelled from the spec: the string form of a field error of the
external library, used when the webhook interpolates a not-supported
error into its own message. -/
def fieldErrorString (e : FieldError) : String :=
  match e.type with
  | .required =>
      e.field ++ ": " ++ errorTypeString e.type ++
        (if e.detail = "" then "" else ": " ++ e.detail)
  | _ =>
      e.field ++ ": " ++ errorTypeString e.type ++ ": " ++ goQuote e.badValue ++
        (if e.detail = "" then "" else ": " ++ e.detail)

/-- Constructor for an invalid-value error (external `field.Invalid`). -/
def fieldInvalid (f value detail : String) : FieldError :=
  { type := .invalid, field := f, badValue := value, detail := detail }

/-- Constructor for a required-value error (external `field.Required`);
the bad value of a required error is the empty string. -/
def fieldRequired (f detail : String) : FieldError :=
  { type := .required, field := f, badValue := "", detail := detail }

/-- Constructor for a not-supported error (external
`field.NotSupported`). -/
def fieldNotSupported (f value : String) (validValues : List String) : FieldError :=
  { type := .notSupported, field := f, badValue := value,
    detail := notSupportedDetail validValues }

/-- Accumulates a decimal digit run; fails on the first non-digit
character. -/
def readDigitsAux : List Char → Nat → Option Nat
  | [], acc => some acc
  | c :: cs, acc =>
      if 48 ≤ c.toNat ∧ c.toNat ≤ 57 then
        readDigitsAux cs (acc * 10 + (c.toNat - 48))
      else none

/-- Go `strconv.Atoi` (that is, `ParseInt(s, 10, 0)` on a 64-bit
platform): an optional single sign, then one or more decimal digits,
the whole string consumed, result within the signed 64-bit range;
anything else is an error (`none`). -/
def goAtoi (s : String) : Option Int :=
  match s.data with
  | [] => none
  | c :: cs =>
      let signed : Bool × List Char :=
        if c = '+' then (false, cs)
        else if c = '-' then (true, cs)
        else (false, c :: cs)
      match signed.2 with
      | [] => none
      | d :: ds =>
          match readDigitsAux (d :: ds) 0 with
          | none => none
          | some n =>
              if signed.1 then
                if n ≤ 2 ^ 63 then some (-(n : Int)) else none
              else
                if n < 2 ^ 63 then some (n : Int) else none

/-- Go `strconv.ParseBool`: accepts exactly the literals
1, t, T, TRUE, true, True for true and 0, f, F, FALSE, false, False
for false; everything else is an error (`none`). -/
def goParseBool (s : String) : Option Bool :=
  if s = "1" ∨ s = "t" ∨ s = "T" ∨ s = "TRUE" ∨ s = "true" ∨ s = "True" then
    some true
  else if s = "0" ∨ s = "f" ∨ s = "F" ∨ s = "FALSE" ∨ s = "false" ∨ s = "False" then
    some false
  else none

/-- The parameter type tag is a string kind in the source
(`type ParameterType string`); its zero value is the empty string. -/
abbrev ParameterType := String

/-- The int parameter type constant. -/
def IntType : ParameterType := "int"

/-- The bool parameter type constant. -/
def BoolType : ParameterType := "bool"

/-- The string parameter type constant. -/
def StringType : ParameterType := "string"

/-- One parameter rule of the catalog.  Omitted fields of a Go struct
literal take their zero values: the empty string for `ParameterType`
(which is distinct from `StringType`) and `false` for `Required`. -/
structure ParameterRules where
  Name : String
  ParameterType : ParameterType := ""
  Required : Bool := false
deriving DecidableEq

/-- The two independent rule lists of one (target, action) pair.  A Go
nil slice is embedded as `none`; the webhook tests both fields against
nil before checking them. -/
structure ActionParameterRules where
  Flags : Option (List ParameterRules) := none
  Matcher : Option (List ParameterRules) := none
deriving DecidableEq

/-- Modelled from the spec: the `JVMChaosTarget` string constants are
declared in a file of this repository that is not part of the given
sources (only the webhook that uses them is); their values are taken
from the target names the spec lists.  Only distinctness of the values
matters to the claims. -/
def SERVLET : String := "servlet"

/-- Modelled from the spec: see `SERVLET`. -/
def PSQL : String := "psql"

/-- Modelled from the spec: see `SERVLET`. -/
def MYSQL : String := "mysql"

/-- Modelled from the spec: see `SERVLET`. -/
def JEDIS : String := "jedis"

/-- Modelled from the spec: see `SERVLET`. -/
def HTTP : String := "http"

/-- Modelled from the spec: see `SERVLET`. -/
def ROCKETMQ : String := "rocketmq"

/-- Modelled from the spec: see `SERVLET`. -/
def TARS : String := "tars"

/-- Modelled from the spec: see `SERVLET`. -/
def DUBBO : String := "dubbo"

/-- Modelled from the spec: see `SERVLET`. -/
def JVM : String := "jvm"

/-- Modelled from the spec: see `SERVLET`. -/
def DRUID : String := "druid"

/-- Modelled from the spec: the `JVMChaosAction` string constants,
likewise declared outside the given sources; values follow the action
names the spec lists (delay, exception, return-value, run-script, OOM,
cpu-fullload, fill-code-cache, thread-pool-full,
throw-declared-exception, connection-pool-full). -/
def JVMDelayAction : String := "delay"

/-- Modelled from the spec: see `JVMDelayAction`. -/
def JVMExceptionAction : String := "exception"

/-- Modelled from the spec: see `JVMDelayAction`. -/
def JVMReturnAction : String := "return"

/-- Modelled from the spec: see `JVMDelayAction`. -/
def JVMScriptAction : String := "script"

/-- Modelled from the spec: see `JVMDelayAction`. -/
def JVMCpuFullloadAction : String := "cpu-fullload"

/-- Modelled from the spec: see `JVMDelayAction`. -/
def JVMOOMAction : String := "oom"

/-- Modelled from the spec: see `JVMDelayAction`. -/
def JVMCodeCacheFillingAction : String := "fill-code-cache"

/-- Modelled from the spec: see `JVMDelayAction`. -/
def JVMThreadPoolFullAction : String := "thread-pool-full"

/-- Modelled from the spec: see `JVMDelayAction`. -/
def JVMThrowDeclaredExceptionAction : String := "throw-declared-exception"

/-- Modelled from the spec: see `JVMDelayAction`. -/
def JVMConnectionPoolFullAction : String := "connection-pool-full"

/-- The static rule catalog `JvmSpec` of the webhook source, target by
target, transcribed entry for entry; an omitted struct field keeps its
Go zero value via the structure defaults of `ParameterRules` and
`ActionParameterRules`. -/
def JvmSpec : List (String × List (String × ActionParameterRules)) := [
  (SERVLET, [
    (JVMDelayAction, {
      Flags := some [
        { Name := "time", ParameterType := IntType, Required := true },
        { Name := "offset", ParameterType := IntType }],
      Matcher := some [
        { Name := "effect-count", ParameterType := IntType },
        { Name := "effect-percent", ParameterType := IntType },
        { Name := "method" },
        { Name := "querystring" },
        { Name := "requestpath" }] }),
    (JVMExceptionAction, {
      Flags := some [
        { Name := "exception", Required := true },
        { Name := "exception-message" }],
      Matcher := some [
        { Name := "effect-count", ParameterType := IntType },
        { Name := "effect-percent", ParameterType := IntType },
        { Name := "method" },
        { Name := "querystring" },
        { Name := "requestpath" }] })]),
  (PSQL, [
    (JVMDelayAction, {
      Flags := some [
        { Name := "time", ParameterType := IntType, Required := true },
        { Name := "offset", ParameterType := IntType }],
      Matcher := some [
        { Name := "effect-count", ParameterType := IntType },
        { Name := "effect-percent", ParameterType := IntType },
        { Name := "sqltype" },
        { Name := "database" },
        { Name := "port", ParameterType := IntType },
        { Name := "host" },
        { Name := "table" }] }),
    (JVMExceptionAction, {
      Flags := some [
        { Name := "exception", Required := true },
        { Name := "exception-message" }],
      Matcher := some [
        { Name := "effect-count", ParameterType := IntType },
        { Name := "effect-percent", ParameterType := IntType },
        { Name := "sqltype" },
        { Name := "database" },
        { Name := "port", ParameterType := IntType },
        { Name := "host" },
        { Name := "table" }] })]),
  (MYSQL, [
    (JVMDelayAction, {
      Flags := some [
        { Name := "time", ParameterType := IntType, Required := true },
        { Name := "offset", ParameterType := IntType }],
      Matcher := some [
        { Name := "effect-count", ParameterType := IntType },
        { Name := "effect-percent", ParameterType := IntType },
        { Name := "sqltype" },
        { Name := "database" },
        { Name := "port", ParameterType := IntType },
        { Name := "host" },
        { Name := "table" }] }),
    (JVMExceptionAction, {
      Flags := some [
        { Name := "exception", Required := true },
        { Name := "exception-message" }],
      Matcher := some [
        { Name := "effect-count", ParameterType := IntType },
        { Name := "effect-percent", ParameterType := IntType },
        { Name := "sqltype" },
        { Name := "database" },
        { Name := "port", ParameterType := IntType },
        { Name := "host" },
        { Name := "table" }] })]),
  (JEDIS, [
    (JVMDelayAction, {
      Flags := some [
        { Name := "time", ParameterType := IntType, Required := true },
        { Name := "offset", ParameterType := IntType }],
      Matcher := some [
        { Name := "effect-count", ParameterType := IntType },
        { Name := "effect-percent", ParameterType := IntType },
        { Name := "cmd" },
        { Name := "key" }] }),
    (JVMExceptionAction, {
      Flags := some [
        { Name := "exception", Required := true },
        { Name := "exception-message" }],
      Matcher := some [
        { Name := "effect-count", ParameterType := IntType },
        { Name := "effect-percent", ParameterType := IntType },
        { Name := "cmd" },
        { Name := "key" }] })]),
  (HTTP, [
    (JVMDelayAction, {
      Flags := some [
        { Name := "time", ParameterType := IntType, Required := true },
        { Name := "offset", ParameterType := IntType }],
      Matcher := some [
        { Name := "effect-count", ParameterType := IntType },
        { Name := "effect-percent", ParameterType := IntType },
        { Name := "httpclient4", ParameterType := BoolType },
        { Name := "rest", ParameterType := BoolType },
        { Name := "httpclient3", ParameterType := BoolType },
        { Name := "uri", Required := true }] }),
    (JVMExceptionAction, {
      Flags := some [
        { Name := "exception", Required := true },
        { Name := "exception-message" }],
      Matcher := some [
        { Name := "effect-count", ParameterType := IntType },
        { Name := "effect-percent", ParameterType := IntType },
        { Name := "httpclient4", ParameterType := BoolType },
        { Name := "rest", ParameterType := BoolType },
        { Name := "httpclient3", ParameterType := BoolType },
        { Name := "uri", Required := true }] })]),
  (ROCKETMQ, [
    (JVMDelayAction, {
      Flags := some [
        { Name := "time", ParameterType := IntType, Required := true },
        { Name := "offset", ParameterType := IntType }],
      Matcher := some [
        { Name := "effect-count", ParameterType := IntType },
        { Name := "effect-percent", ParameterType := IntType },
        { Name := "producerGroup" },
        { Name := "topic" },
        { Name := "consumerGroup" }] }),
    (JVMExceptionAction, {
      Flags := some [
        { Name := "exception", Required := true },
        { Name := "exception-message" }],
      Matcher := some [
        { Name := "effect-count", ParameterType := IntType },
        { Name := "effect-percent", ParameterType := IntType },
        { Name := "producerGroup" },
        { Name := "topic" },
        { Name := "consumerGroup" }] })]),
  (TARS, [
    (JVMDelayAction, {
      Flags := some [
        { Name := "time", ParameterType := IntType, Required := true },
        { Name := "offset", ParameterType := IntType }],
      Matcher := some [
        { Name := "effect-count", ParameterType := IntType },
        { Name := "effect-percent", ParameterType := IntType },
        { Name := "servant", ParameterType := BoolType },
        { Name := "functionname" },
        { Name := "client", ParameterType := BoolType },
        { Name := "servantname", Required := true }] }),
    (JVMExceptionAction, {
      Flags := some [
        { Name := "exception", Required := true },
        { Name := "exception-message" }],
      Matcher := some [
        { Name := "effect-count", ParameterType := IntType },
        { Name := "effect-percent", ParameterType := IntType },
        { Name := "servant", ParameterType := BoolType },
        { Name := "functionname" },
        { Name := "client", ParameterType := BoolType },
        { Name := "servantname", Required := true }] })]),
  (DUBBO, [
    (JVMDelayAction, {
      Flags := some [
        { Name := "time", ParameterType := IntType, Required := true },
        { Name := "offset", ParameterType := IntType }],
      Matcher := some [
        { Name := "effect-count", ParameterType := IntType },
        { Name := "effect-percent", ParameterType := IntType },
        { Name := "appname" },
        { Name := "provider", ParameterType := BoolType },
        { Name := "service" },
        { Name := "version" },
        { Name := "consumer", ParameterType := BoolType },
        { Name := "group" }] }),
    (JVMExceptionAction, {
      Flags := some [
        { Name := "exception", Required := true },
        { Name := "exception-message" }],
      Matcher := some [
        { Name := "effect-count", ParameterType := IntType },
        { Name := "effect-percent", ParameterType := IntType },
        { Name := "appname" },
        { Name := "provider", ParameterType := BoolType },
        { Name := "service" },
        { Name := "version" },
        { Name := "consumer", ParameterType := BoolType },
        { Name := "group" }] }),
    (JVMThreadPoolFullAction, {
      Matcher := some [
        { Name := "effect-count", ParameterType := IntType },
        { Name := "effect-percent", ParameterType := IntType },
        { Name := "provider", ParameterType := BoolType }] })]),
  (JVM, [
    (JVMDelayAction, {
      Flags := some [
        { Name := "time", ParameterType := IntType, Required := true },
        { Name := "offset", ParameterType := IntType }],
      Matcher := some [
        { Name := "effect-count", ParameterType := IntType },
        { Name := "effect-percent", ParameterType := IntType },
        { Name := "classname", Required := true },
        { Name := "after", ParameterType := BoolType },
        { Name := "methodname", Required := true }] }),
    (JVMExceptionAction, {
      Flags := some [
        { Name := "exception", Required := true },
        { Name := "exception-message" }],
      Matcher := some [
        { Name := "effect-count", ParameterType := IntType },
        { Name := "effect-percent", ParameterType := IntType },
        { Name := "classname", Required := true },
        { Name := "after", ParameterType := BoolType },
        { Name := "methodname", Required := true }] }),
    (JVMCodeCacheFillingAction, {}),
    (JVMCpuFullloadAction, {
      Flags := some [
        { Name := "cpu-count", ParameterType := IntType }] }),
    (JVMThrowDeclaredExceptionAction, {
      Matcher := some [
        { Name := "effect-count", ParameterType := IntType },
        { Name := "effect-percent", ParameterType := IntType },
        { Name := "classname", Required := true },
        { Name := "after", ParameterType := BoolType },
        { Name := "methodname", Required := true }] }),
    (JVMReturnAction, {
      Flags := some [
        { Name := "value", Required := true }],
      Matcher := some [
        { Name := "effect-count", ParameterType := IntType },
        { Name := "effect-percent", ParameterType := IntType },
        { Name := "classname", Required := true },
        { Name := "after", ParameterType := BoolType },
        { Name := "methodname", Required := true }] }),
    (JVMScriptAction, {
      Flags := some [
        { Name := "script-file" },
        { Name := "script-type" },
        { Name := "script-content" },
        { Name := "script-name" }],
      Matcher := some [
        { Name := "effect-count", ParameterType := IntType },
        { Name := "effect-percent", ParameterType := IntType },
        { Name := "classname", Required := true },
        { Name := "after", ParameterType := BoolType },
        { Name := "methodname", Required := true }] }),
    (JVMOOMAction, {
      Flags := some [
        { Name := "area", Required := true },
        { Name := "wild-mode", ParameterType := BoolType },
        { Name := "interval", ParameterType := IntType },
        { Name := "block", ParameterType := IntType }] })]),
  (DRUID, [
    (JVMConnectionPoolFullAction, {
      Matcher := some [
        { Name := "effect-count", ParameterType := IntType },
        { Name := "effect-percent", ParameterType := IntType }] })])]

/-- The fields of the experiment spec that the validation core reads
(`in.Spec.Target`, `in.Spec.Action`, `in.Spec.Flags`,
`in.Spec.Matchers`); a nil Go map is `none`. -/
structure JVMChaosSpec where
  Target : String
  Action : String
  Flags : Option PMap := none
  Matchers : Option PMap := none

/-- Go map read with the comma-ok form: `value, exist = m[k]` yields
the stored value and true on a hit, the zero value and false on a
miss. -/
def mapGet (m : PMap) (k : String) : String × Bool :=
  match m.lookup k with
  | some v => (v, true)
  | none => ("", false)

/-- The message of a required violation:
`fmt.Sprintf("with %s: %s, %s: %s", target, in.Spec.Target, action, in.Spec.Action)`. -/
def requiredErrorMsg (target specTarget action specAction : String) : String :=
  "with " ++ target ++ ": " ++ specTarget ++ ", " ++ action ++ ": " ++ specAction

/-- The message of an empty-value violation:
`fmt.Sprintf("%s:%s cannot be empty", innerField, value)`. -/
def emptyErrorMsg (innerField value : String) : String :=
  innerField ++ ":" ++ value ++ " cannot be empty"

/-- The message of an int parse violation:
`fmt.Sprintf("%s:%s cannot parse as Int", innerField, value)`. -/
def intErrorMsg (innerField value : String) : String :=
  innerField ++ ":" ++ value ++ " cannot parse as Int"

/-- The message of a bool parse violation:
`fmt.Sprintf("%s:%s cannot parse as boolean", innerField, value)`. -/
def boolErrorMsg (innerField value : String) : String :=
  innerField ++ ":" ++ value ++ " cannot parse as boolean"

/-- The guarded comma-ok read of `validateParameterRules`: `value` and
`exist` keep their zero-value defaults when the map is nil, and are
read with the comma-ok form otherwise. -/
def lookupParam (parameters : Option PMap) (k : String) : String × Bool :=
  match parameters with
  | some ps => mapGet ps k
  | none => ("", false)

/-- The body of one iteration of the loop of `validateParameterRules`:
the four independent checks on one rule, appended in source order. -/
def checkRule (self : JVMChaosSpec) (parameters : Option PMap)
    (rule : ParameterRules) (parent target action : String) : List FieldError :=
  let innerField := pathChild parent rule.Name
  let ve : String × Bool := lookupParam parameters rule.Name
  (if rule.Required && !ve.2 then
    [fieldRequired innerField (requiredErrorMsg target self.Target action self.Action)]
   else []) ++
  (if ve.2 && rule.Required && (rule.ParameterType == StringType) then
    (if ve.1.length == 0 then
      [fieldInvalid innerField ve.1 (emptyErrorMsg innerField ve.1)]
     else [])
   else []) ++
  (if ve.2 && (rule.ParameterType == IntType) then
    (match goAtoi ve.1 with
     | none => [fieldInvalid innerField ve.1 (intErrorMsg innerField ve.1)]
     | some _ => [])
   else []) ++
  (if ve.2 && (rule.ParameterType == BoolType) then
    (match goParseBool ve.1 with
     | none => [fieldInvalid innerField ve.1 (boolErrorMsg innerField ve.1)]
     | some _ => [])
   else [])

/-- The parameter checker `validateParameterRules`: a loop over the
rule list, appending the violations of every rule in order, with no
early return. -/
def validateParameterRules (self : JVMChaosSpec) (parameters : Option PMap)
    (rules : List ParameterRules) (parent target action : String) : List FieldError :=
  match rules with
  | [] => []
  | rule :: rest =>
      checkRule self parameters rule parent target action ++
        validateParameterRules self parameters rest parent target action

/-- The `toString` helper of the source converts the action list to its
string values (identity on the string embedding of actions). -/
def actionsToString (actions : List String) : List String :=
  actions.map (fun act => act)

/-- The message wrapped around the not-supported error in the
unknown-action branch:
`fmt.Sprintf("target: %s does not match action: %s, action detail error: %s", ...)`. -/
def unsupportedActionMsg (specTarget specAction : String)
    (notSupportedError : FieldError) : String :=
  "target: " ++ specTarget ++ " does not match action: " ++ specAction ++
    ", action detail error: " ++ fieldErrorString notSupportedError

/-- The validator `validateJvmChaos`: resolve the target in `JvmSpec`,
then the action, then check flags and matcher rule lists (each guarded
by a nil test) and concatenate; an unresolved action yields one invalid
violation at the target field wrapping a not-supported error whose
valid values are the action-map keys in iteration order `ord`; an
unresolved target yields one invalid violation at the target field.
The parameter `ord` models the unspecified order in which the Go
`range` loop enumerates the action map keys into `supportActions`. -/
def validateJvmChaos (ord : List String) (self : JVMChaosSpec)
    (spec : String) : List FieldError :=
  let targetField := pathChild spec "target"
  let actionField := pathChild spec "action"
  let flagsField := pathChild spec "flags"
  let matcherField := pathChild spec "matcher"
  match JvmSpec.lookup self.Target with
  | some actions =>
      match actions.lookup self.Action with
      | some actionPR =>
          (match actionPR.Flags with
           | some fr =>
               validateParameterRules self self.Flags fr flagsField targetField actionField
           | none => []) ++
          (match actionPR.Matcher with
           | some mr =>
               validateParameterRules self self.Matchers mr matcherField targetField actionField
           | none => [])
      | none =>
          let supportActions := ord
          let notSupportedError :=
            fieldNotSupported actionField self.Action (actionsToString supportActions)
          let errorMsg := unsupportedActionMsg self.Target self.Action notSupportedError
          [fieldInvalid targetField self.Target errorMsg]
  | none =>
      [fieldInvalid targetField self.Target "unknown JVM chaos target"]

/-- The keys of the action map of one target, in catalog order; the
empty list for an unknown target. -/
def targetActions (target : String) : List String :=
  match JvmSpec.lookup target with
  | some actions => actions.map Prod.fst
  | none => []

/-- A violation without its detail message: kind, field path, and bad
value. -/
def stripDetail (e : FieldError) : FieldErrorType × String × String :=
  (e.type, e.field, e.badValue)

/-- Every parameter rule appearing anywhere in the catalog, flags and
matchers alike. -/
def allCatalogRules : List ParameterRules :=
  JvmSpec.flatMap (fun t => t.2.flatMap (fun a =>
    a.2.Flags.getD [] ++ a.2.Matcher.getD []))

/-- The two-step catalog resolution as one partial lookup: the rule set
of a (target, action) pair when both resolve. -/
def actionRulesOf (target action : String) : Option ActionParameterRules :=
  (JvmSpec.lookup target).bind (fun actions => actions.lookup action)

theorem validateParameterRules_singleton (self : JVMChaosSpec) (parameters : Option PMap)
    (rule : ParameterRules) (parent target action : String) :
    validateParameterRules self parameters [rule] parent target action =
      checkRule self parameters rule parent target action := by
  simp [validateParameterRules]

theorem validateParameterRules_flatten (self : JVMChaosSpec) (parameters : Option PMap)
    (rules : List ParameterRules) (parent target action : String) :
    validateParameterRules self parameters rules parent target action =
      (rules.map (fun r =>
        validateParameterRules self parameters [r] parent target action)).flatten := by
  induction rules with
  | nil => rfl
  | cons r rest ih => simp [validateParameterRules, ih]

theorem checkRule_length_le_one (self : JVMChaosSpec) (parameters : Option PMap)
    (rule : ParameterRules) (parent target action : String) :
    (checkRule self parameters rule parent target action).length ≤ 1 := by
  obtain ⟨n, pt, rq⟩ := rule
  simp only [checkRule]
  rcases hve : lookupParam parameters n with ⟨value, exist⟩
  simp only [hve]
  cases exist with
  | false => cases rq <;> simp
  | true =>
    by_cases h1 : pt = StringType
    · subst h1
      simp [StringType, IntType, BoolType]
      cases rq with
      | false => simp
      | true =>
        simp
        split <;> simp
    · by_cases h2 : pt = IntType
      · subst h2
        simp [StringType, IntType, BoolType]
        split <;> simp
      · by_cases h3 : pt = BoolType
        · subst h3
          simp [StringType, IntType, BoolType]
          split <;> simp
        · simp [beq_iff_eq, h1, h2, h3]

theorem checkRule_field_eq (self : JVMChaosSpec) (parameters : Option PMap)
    (rule : ParameterRules) (parent target action : String) :
    ∀ e ∈ checkRule self parameters rule parent target action,
      e.field = pathChild parent rule.Name := by
  obtain ⟨n, pt, rq⟩ := rule
  simp only [checkRule]
  rcases hve : lookupParam parameters n with ⟨value, exist⟩
  simp only [hve]
  intro e he
  simp only [List.mem_append] at he
  rcases he with ((h | h) | h) | h
  all_goals repeat' split at h
  all_goals simp_all [fieldRequired, fieldInvalid]

theorem validateParameterRules_congr (self : JVMChaosSpec) (p1 p2 : Option PMap)
    (rules : List ParameterRules) (parent target action : String)
    (h : ∀ r ∈ rules, lookupParam p1 r.Name = lookupParam p2 r.Name) :
    validateParameterRules self p1 rules parent target action =
      validateParameterRules self p2 rules parent target action := by
  induction rules with
  | nil => rfl
  | cons r rest ih =>
    have h1 : lookupParam p1 r.Name = lookupParam p2 r.Name :=
      h r (List.mem_cons_self r rest)
    have hcr : checkRule self p1 r parent target action =
        checkRule self p2 r parent target action := by
      simp [checkRule, h1]
    simp only [validateParameterRules, hcr,
      ih (fun x hx => h x (List.mem_cons_of_mem r hx))]

/-- Claim C1: the claim states that target DUBBO, action exception,
flags containing the required flag exception bound to the empty string
yields one EmptyValue violation at flags.exception.  The code disagrees
and the claim matches the evident intent: the blank check requires
`rule.ParameterType == StringType`, but a catalog rule written without
an explicit type carries the zero value of the string kind, which is
the empty string and not `StringType`; since no catalog rule sets
`StringType` explicitly (second conjunct), the blank check is dead code
and this request validates with no violation at all (first conjunct). -/
theorem blank_required_exception_unreported :
    validateJvmChaos []
      { Target := DUBBO, Action := JVMExceptionAction,
        Flags := some [("exception", "")], Matchers := none } "spec" = [] ∧
    allCatalogRules.all (fun r => !(r.ParameterType == StringType)) = true := by
  exact ⟨by decide, by decide⟩

/-- Claim C4: for every target value that is not a catalog key,
validate returns exactly one violation, an invalid-value error at the
target field with the unknown-target message (the TargetUnknown kind of
the spec), and the submitted flags and matchers are not inspected: the
result is this singleton for all flags, matchers, and iteration
orders. -/
theorem unknown_target_single_violation (ord : List String) (self : JVMChaosSpec)
    (spec : String) (h : JvmSpec.lookup self.Target = none) :
    validateJvmChaos ord self spec =
      [fieldInvalid (pathChild spec "target") self.Target "unknown JVM chaos target"] := by
  simp [validateJvmChaos, h]

/-- Witness for C4: target UNKNOWN from the spec scenario, with
deliberately malformed flags and matchers that would violate the HTTP
delay rules were they inspected. -/
theorem unknown_target_single_violation_witness :
    validateJvmChaos []
      { Target := "UNKNOWN", Action := "delay",
        Flags := some [("time", "abc")], Matchers := some [("uri", "")] } "spec" =
      [fieldInvalid "spec.target" "UNKNOWN" "unknown JVM chaos target"] :=
  unknown_target_single_violation [] _ "spec" rfl

/-- Claim C10: the parameter checker emits at most one violation per
rule per call: on a single rule the result has length at most one
(first conjunct), so over a rule list the result never exceeds one
violation per rule (second conjunct); a nil parameter map behaves
exactly like an empty one (third conjunct). -/
theorem at_most_one_violation_per_rule (self : JVMChaosSpec) (parameters : Option PMap)
    (rule : ParameterRules) (rules : List ParameterRules) (parent target action : String) :
    (validateParameterRules self parameters [rule] parent target action).length ≤ 1 ∧
    (validateParameterRules self parameters rules parent target action).length ≤ rules.length ∧
    validateParameterRules self none rules parent target action =
      validateParameterRules self (some []) rules parent target action := by
  refine ⟨?_, ?_, ?_⟩
  · rw [validateParameterRules_singleton]
    exact checkRule_length_le_one self parameters rule parent target action
  · induction rules with
    | nil => simp [validateParameterRules]
    | cons r rest ih =>
      simp only [validateParameterRules, List.length_append, List.length_cons]
      have hr := checkRule_length_le_one self parameters r parent target action
      omega
  · exact validateParameterRules_congr self none (some []) rules parent target action
      (fun r _ => rfl)

/-- Claim C7: target HTTP, action delay, with present-but-empty flags
and matchers maps, yields exactly the two required-value violations at
spec.flags.time and spec.matcher.uri, in that order (first conjunct);
and in general, any rule with Required true whose name is absent from
its map yields exactly one required-value violation at the rule's field
path, independently of which map (flags or matchers) is checked (second
conjunct, stated for the checker shared by both). -/
theorem http_delay_missing_required_two_violations
    (self : JVMChaosSpec) (parameters : Option PMap)
    (name pt parent target action : String)
    (h : (lookupParam parameters name).2 = false) :
    validateJvmChaos []
      { Target := HTTP, Action := JVMDelayAction,
        Flags := some [], Matchers := some [] } "spec" =
      [fieldRequired "spec.flags.time"
         (requiredErrorMsg "spec.target" HTTP "spec.action" JVMDelayAction),
       fieldRequired "spec.matcher.uri"
         (requiredErrorMsg "spec.target" HTTP "spec.action" JVMDelayAction)] ∧
    validateParameterRules self parameters
      [{ Name := name, ParameterType := pt, Required := true }] parent target action =
      [fieldRequired (pathChild parent name)
         (requiredErrorMsg target self.Target action self.Action)] := by
  constructor
  · decide
  · rw [validateParameterRules_singleton]
    rcases hve : lookupParam parameters name with ⟨v, ex⟩
    rw [hve] at h
    simp only at h
    subst h
    simp [checkRule, hve]

/-- Witness for C7: flags map containing an unrelated key, so the
required flag time is genuinely absent. -/
theorem http_delay_missing_required_two_violations_witness :
    validateJvmChaos []
      { Target := HTTP, Action := JVMDelayAction,
        Flags := some [], Matchers := some [] } "spec" =
      [fieldRequired "spec.flags.time"
         (requiredErrorMsg "spec.target" HTTP "spec.action" JVMDelayAction),
       fieldRequired "spec.matcher.uri"
         (requiredErrorMsg "spec.target" HTTP "spec.action" JVMDelayAction)] ∧
    validateParameterRules { Target := HTTP, Action := JVMDelayAction }
      (some [("offset", "1")])
      [{ Name := "time", ParameterType := IntType, Required := true }]
      "spec.flags" "spec.target" "spec.action" =
      [fieldRequired (pathChild "spec.flags" "time")
         (requiredErrorMsg "spec.target" HTTP "spec.action" JVMDelayAction)] :=
  http_delay_missing_required_two_violations
    { Target := HTTP, Action := JVMDelayAction } (some [("offset", "1")])
    "time" IntType "spec.flags" "spec.target" "spec.action" rfl

theorem goAtoi_digits : goAtoi "123" = some 123 := by decide

theorem goAtoi_letters : goAtoi "abc" = none := by decide

theorem goParseBool_true : goParseBool "true" = some true := by decide

theorem goParseBool_false : goParseBool "false" = some false := by decide

theorem goParseBool_maybe : goParseBool "maybe" = none := by decide

/-- Claim C8: type checking is a parse check on the transported string.
For any rule declared with the int type, the present value 123 passes
and abc yields exactly one type-mismatch violation; for any rule with
the bool type, true and false pass and maybe yields exactly one
type-mismatch violation — with the Go standard library parse semantics
embedded in `goAtoi` and `goParseBool`. -/
theorem type_checks_parse_semantics (self : JVMChaosSpec)
    (name parent target action : String) (req : Bool) :
    validateParameterRules self (some [(name, "123")])
      [{ Name := name, ParameterType := IntType, Required := req }]
      parent target action = [] ∧
    validateParameterRules self (some [(name, "abc")])
      [{ Name := name, ParameterType := IntType, Required := req }]
      parent target action =
      [fieldInvalid (pathChild parent name)
        "abc" (intErrorMsg (pathChild parent name) "abc")] ∧
    validateParameterRules self (some [(name, "true")])
      [{ Name := name, ParameterType := BoolType, Required := req }]
      parent target action = [] ∧
    validateParameterRules self (some [(name, "false")])
      [{ Name := name, ParameterType := BoolType, Required := req }]
      parent target action = [] ∧
    validateParameterRules self (some [(name, "maybe")])
      [{ Name := name, ParameterType := BoolType, Required := req }]
      parent target action =
      [fieldInvalid (pathChild parent name)
        "maybe" (boolErrorMsg (pathChild parent name) "maybe")] := by
  refine ⟨?_, ?_, ?_, ?_, ?_⟩ <;>
    simp [validateParameterRules, checkRule, lookupParam, mapGet, List.lookup,
      IntType, BoolType, StringType,
      goAtoi_digits, goAtoi_letters, goParseBool_true, goParseBool_false, goParseBool_maybe]

/-- Claim C6: a rule with Required true whose submitted value is
present but fails to parse under its declared int or bool type yields
exactly one type-mismatch (invalid-value) violation and no
required-value violation: the required branch fires only on absence,
and the type branches are disjoint. -/
theorem present_malformed_required_single_type_mismatch
    (self : JVMChaosSpec) (parameters : Option PMap) (rule : ParameterRules)
    (parent target action v : String)
    (hreq : rule.Required = true)
    (hv : lookupParam parameters rule.Name = (v, true))
    (h : (rule.ParameterType = IntType ∧ goAtoi v = none) ∨
         (rule.ParameterType = BoolType ∧ goParseBool v = none)) :
    validateParameterRules self parameters [rule] parent target action =
      [fieldInvalid (pathChild parent rule.Name) v
        (if rule.ParameterType = IntType then
          intErrorMsg (pathChild parent rule.Name) v
         else boolErrorMsg (pathChild parent rule.Name) v)] := by
  obtain ⟨n, pt, rq⟩ := rule
  simp only at hreq hv h ⊢
  subst hreq
  rw [validateParameterRules_singleton]
  rcases h with ⟨hpt, hparse⟩ | ⟨hpt, hparse⟩ <;> subst hpt <;>
    simp [checkRule, hv, hparse, IntType, BoolType, StringType]

/-- Witness for C6: the int-typed required flag time bound to the
unparsable value abc. -/
theorem present_malformed_required_single_type_mismatch_witness :
    validateParameterRules { Target := HTTP, Action := JVMDelayAction }
      (some [("time", "abc")])
      [{ Name := "time", ParameterType := IntType, Required := true }]
      "spec.flags" "spec.target" "spec.action" =
      [fieldInvalid "spec.flags.time" "abc" (intErrorMsg "spec.flags.time" "abc")] :=
  present_malformed_required_single_type_mismatch
    { Target := HTTP, Action := JVMDelayAction } (some [("time", "abc")])
    { Name := "time", ParameterType := IntType, Required := true }
    "spec.flags" "spec.target" "spec.action" "abc" rfl rfl (Or.inl ⟨rfl, by decide⟩)

theorem validateParameterRules_field_mem (self : JVMChaosSpec) (parameters : Option PMap)
    (rules : List ParameterRules) (parent target action : String) :
    ∀ e ∈ validateParameterRules self parameters rules parent target action,
      ∃ r ∈ rules, e.field = pathChild parent r.Name := by
  induction rules with
  | nil => simp [validateParameterRules]
  | cons r rest ih =>
    intro e he
    simp only [validateParameterRules, List.mem_append] at he
    rcases he with h | h
    · exact ⟨r, List.mem_cons_self r rest,
        checkRule_field_eq self parameters r parent target action e h⟩
    · obtain ⟨r2, hr2, hf⟩ := ih e h
      exact ⟨r2, List.mem_cons_of_mem r hr2, hf⟩

/-- Claim C9: a key present in a submitted map but not named by any
rule produces no violation attributable to it: removing the extra
binding leaves the violation list unchanged (first conjunct), and every
violation is addressed at the field path of one of the declared rules,
never at the extra key (second conjunct). -/
theorem extra_parameters_ignored (self : JVMChaosSpec) (k v : String) (ps : PMap)
    (rules : List ParameterRules) (parent target action : String) (e : FieldError)
    (h : ∀ r ∈ rules, r.Name ≠ k)
    (he : e ∈ validateParameterRules self (some ((k, v) :: ps)) rules parent target action) :
    validateParameterRules self (some ((k, v) :: ps)) rules parent target action =
      validateParameterRules self (some ps) rules parent target action ∧
    e.field ∈ rules.map (fun r => pathChild parent r.Name) := by
  constructor
  · apply validateParameterRules_congr
    intro r hr
    have hne : (r.Name == k) = false := by
      simp [h r hr]
    simp [lookupParam, mapGet, List.lookup, hne]
  · obtain ⟨r, hr, hf⟩ :=
      validateParameterRules_field_mem self (some ((k, v) :: ps))
        rules parent target action e he
    exact List.mem_map.mpr ⟨r, hr, hf.symm⟩

/-- Witness for C9: an extra binding ahead of a rule list with one
required rule; the only violation is addressed at the declared rule. -/
theorem extra_parameters_ignored_witness :
    validateParameterRules { Target := HTTP, Action := JVMDelayAction }
      (some [("extra", "boom")])
      [{ Name := "time", ParameterType := IntType, Required := true }]
      "spec.flags" "spec.target" "spec.action" =
    validateParameterRules { Target := HTTP, Action := JVMDelayAction }
      (some [])
      [{ Name := "time", ParameterType := IntType, Required := true }]
      "spec.flags" "spec.target" "spec.action" ∧
    (fieldRequired "spec.flags.time"
       (requiredErrorMsg "spec.target" HTTP "spec.action" JVMDelayAction)).field ∈
      ([{ Name := "time", ParameterType := IntType, Required := true }] :
        List ParameterRules).map (fun r => pathChild "spec.flags" r.Name) :=
  extra_parameters_ignored { Target := HTTP, Action := JVMDelayAction }
    "extra" "boom" []
    [{ Name := "time", ParameterType := IntType, Required := true }]
    "spec.flags" "spec.target" "spec.action"
    (fieldRequired "spec.flags.time"
      (requiredErrorMsg "spec.target" HTTP "spec.action" JVMDelayAction))
    (by decide) (by decide)

/-- Claim C3: for a target that is a catalog key and an action not
defined for it, validate returns exactly one violation — an
invalid-value error at the target field (the ActionUnsupported kind of
the spec) wrapping a not-supported error whose valid values are the
enumerated action keys `ord` — and no parameter violations; the
enumeration `ord` contains every action defined for the target (`a`),
and only defined actions (`b`). -/
theorem unknown_action_single_violation (ord : List String) (self : JVMChaosSpec)
    (spec : String) (a b : String)
    (h1 : (JvmSpec.lookup self.Target).isSome = true)
    (h2 : actionRulesOf self.Target self.Action = none)
    (hperm : ord.Perm (targetActions self.Target))
    (ha : a ∈ targetActions self.Target) (hb : b ∈ ord) :
    validateJvmChaos ord self spec =
      [fieldInvalid (pathChild spec "target") self.Target
        (unsupportedActionMsg self.Target self.Action
          (fieldNotSupported (pathChild spec "action") self.Action
            (actionsToString ord)))] ∧
    a ∈ ord ∧ b ∈ targetActions self.Target := by
  obtain ⟨acts, hacts⟩ := Option.isSome_iff_exists.mp h1
  have hact : acts.lookup self.Action = none := by
    simpa [actionRulesOf, hacts] using h2
  refine ⟨by simp [validateJvmChaos, hacts, hact], ?_, hperm.mem_iff.mp hb⟩
  rw [hperm.mem_iff]
  exact ha

/-- Witness for C3: target DRUID with the undefined action delay; the
only defined action connection-pool-full is enumerated. -/
theorem unknown_action_single_violation_witness :
    validateJvmChaos [JVMConnectionPoolFullAction]
      { Target := DRUID, Action := "delay", Flags := none, Matchers := none } "spec" =
      [fieldInvalid "spec.target" DRUID
        (unsupportedActionMsg DRUID "delay"
          (fieldNotSupported "spec.action" "delay"
            (actionsToString [JVMConnectionPoolFullAction])))] ∧
    JVMConnectionPoolFullAction ∈ ([JVMConnectionPoolFullAction] : List String) ∧
    JVMConnectionPoolFullAction ∈ targetActions DRUID :=
  unknown_action_single_violation [JVMConnectionPoolFullAction]
    { Target := DRUID, Action := "delay" } "spec"
    JVMConnectionPoolFullAction JVMConnectionPoolFullAction
    rfl rfl (by decide) (by decide) (by decide)

/-- Claim C5: when both target and action resolve, the result is the
flags violations followed by the matcher violations, each list guarded
by the nil test of the source (first conjunct); and the checker output
over a rule list is the in-order concatenation of the per-rule outputs,
so every rule is checked with no early return (second conjunct). -/
theorem resolved_pair_concatenates_all_rule_checks (ord : List String)
    (self : JVMChaosSpec) (spec : String)
    (acts : List (String × ActionParameterRules)) (pr : ActionParameterRules)
    (parameters : Option PMap) (rules : List ParameterRules)
    (parent target action : String)
    (h1 : JvmSpec.lookup self.Target = some acts)
    (h2 : acts.lookup self.Action = some pr) :
    validateJvmChaos ord self spec =
      (match pr.Flags with
       | some fr => validateParameterRules self self.Flags fr (pathChild spec "flags")
           (pathChild spec "target") (pathChild spec "action")
       | none => []) ++
      (match pr.Matcher with
       | some mr => validateParameterRules self self.Matchers mr (pathChild spec "matcher")
           (pathChild spec "target") (pathChild spec "action")
       | none => []) ∧
    validateParameterRules self parameters rules parent target action =
      (rules.map (fun r =>
        validateParameterRules self parameters [r] parent target action)).flatten :=
  ⟨by simp [validateJvmChaos, h1, h2],
   validateParameterRules_flatten self parameters rules parent target action⟩

/-- Witness for C5: target DRUID, action connection-pool-full, with an
empty matchers map; the result is the matcher check alone (the flags
rule list is nil) and the per-rule decomposition holds for its two
optional matcher rules. -/
theorem resolved_pair_concatenates_all_rule_checks_witness :
    validateJvmChaos []
      { Target := DRUID, Action := JVMConnectionPoolFullAction,
        Flags := none, Matchers := some [] } "spec" =
      validateParameterRules
        { Target := DRUID, Action := JVMConnectionPoolFullAction,
          Flags := none, Matchers := some [] } (some [])
        [{ Name := "effect-count", ParameterType := IntType },
         { Name := "effect-percent", ParameterType := IntType }]
        "spec.matcher" "spec.target" "spec.action" ∧
    validateParameterRules
      { Target := DRUID, Action := JVMConnectionPoolFullAction,
        Flags := none, Matchers := some [] } (some [])
      [{ Name := "effect-count", ParameterType := IntType },
       { Name := "effect-percent", ParameterType := IntType }]
      "spec.matcher" "spec.target" "spec.action" =
      (([{ Name := "effect-count", ParameterType := IntType },
          { Name := "effect-percent", ParameterType := IntType }] :
          List ParameterRules).map (fun r =>
        validateParameterRules
          { Target := DRUID, Action := JVMConnectionPoolFullAction,
            Flags := none, Matchers := some [] } (some [])
          [r] "spec.matcher" "spec.target" "spec.action")).flatten :=
  resolved_pair_concatenates_all_rule_checks []
    { Target := DRUID, Action := JVMConnectionPoolFullAction,
      Flags := none, Matchers := some [] } "spec"
    [(JVMConnectionPoolFullAction,
      { Matcher := some [
          { Name := "effect-count", ParameterType := IntType },
          { Name := "effect-percent", ParameterType := IntType }] })]
    { Matcher := some [
        { Name := "effect-count", ParameterType := IntType },
        { Name := "effect-percent", ParameterType := IntType }] }
    (some [])
    [{ Name := "effect-count", ParameterType := IntType },
     { Name := "effect-percent", ParameterType := IntType }]
    "spec.matcher" "spec.target" "spec.action" rfl rfl

theorem validateJvmChaos_stripDetail_indep (p q : List String)
    (self : JVMChaosSpec) (spec : String) :
    (validateJvmChaos p self spec).map stripDetail =
      (validateJvmChaos q self spec).map stripDetail := by
  rcases hl : JvmSpec.lookup self.Target with _ | acts
  · simp [validateJvmChaos, hl]
  · rcases ha : acts.lookup self.Action with _ | pr
    · simp [validateJvmChaos, hl, ha, stripDetail, fieldInvalid]
    · simp [validateJvmChaos, hl, ha]

/-- Claim C2 counterexample: the claim asserts that two runs of
validate on identical inputs always return identical violation lists,
messages included.  The iteration order of the Go range loop over the
action map is unspecified, and it reaches the message: for target HTTP
and an undefined action, the two orders below are both permutations of
the defined action keys (first two conjuncts), yet the two runs return
different violation lists (third conjunct). -/
theorem validate_rerun_message_differs :
    (["delay", "exception"] : List String).Perm (targetActions HTTP) ∧
    (["exception", "delay"] : List String).Perm (targetActions HTTP) ∧
    validateJvmChaos ["delay", "exception"]
      { Target := HTTP, Action := "no-such-action",
        Flags := none, Matchers := none } "spec" ≠
    validateJvmChaos ["exception", "delay"]
      { Target := HTTP, Action := "no-such-action",
        Flags := none, Matchers := none } "spec" :=
  ⟨by decide, by decide, by decide⟩

/-- Claim C2 (amended): two runs of validate on identical inputs agree
on the kind, field path, and bad value of every violation, position by
position, whatever the two iteration orders are (second conjunct); the
full lists — messages included — are identical whenever the two runs
enumerate the action map in the same order, or the request does not hit
the unsupported-action branch (first conjunct, under the hypothesis). -/
theorem validate_rerun_agreement (o1 o2 p q : List String)
    (self : JVMChaosSpec) (spec : String)
    (h : o1 = o2 ∨ actionRulesOf self.Target self.Action ≠ none ∨
      JvmSpec.lookup self.Target = none) :
    validateJvmChaos o1 self spec = validateJvmChaos o2 self spec ∧
    (validateJvmChaos p self spec).map stripDetail =
      (validateJvmChaos q self spec).map stripDetail := by
  refine ⟨?_, validateJvmChaos_stripDetail_indep p q self spec⟩
  rcases h with h | h | h
  · rw [h]
  · rcases hl : JvmSpec.lookup self.Target with _ | acts
    · simp [validateJvmChaos, hl]
    · rcases ha : acts.lookup self.Action with _ | pr
      · exfalso
        exact h (by simp [actionRulesOf, hl, ha])
      · simp [validateJvmChaos, hl, ha]
  · simp [validateJvmChaos, h]

/-- Witness for C2 (amended): a resolved (target, action) pair run with
two different iteration orders; the lists coincide entirely. -/
theorem validate_rerun_agreement_witness :
    validateJvmChaos ["delay"]
      { Target := HTTP, Action := JVMDelayAction,
        Flags := some [("time", "100")], Matchers := some [("uri", "/orders")] } "spec" =
    validateJvmChaos ["exception"]
      { Target := HTTP, Action := JVMDelayAction,
        Flags := some [("time", "100")], Matchers := some [("uri", "/orders")] } "spec" ∧
    (validateJvmChaos ["delay"]
      { Target := HTTP, Action := JVMDelayAction,
        Flags := some [("time", "100")], Matchers := some [("uri", "/orders")] } "spec").map
      stripDetail =
    (validateJvmChaos ["exception"]
      { Target := HTTP, Action := JVMDelayAction,
        Flags := some [("time", "100")], Matchers := some [("uri", "/orders")] } "spec").map
      stripDetail :=
  validate_rerun_agreement ["delay"] ["exception"] ["delay"] ["exception"]
    { Target := HTTP, Action := JVMDelayAction,
      Flags := some [("time", "100")], Matchers := some [("uri", "/orders")] } "spec"
    (Or.inr (Or.inl (by decide)))
